import Mathlib

/-!
Verification development for the Binance trading bot's advanced order
execution engine.  The Python source is shallowly embedded: prices and
quantities are rationals (Python floats are treated as exact arithmetic),
dictionaries become structures, exchange responses become `Option` values
(a `none` response is the uniform failure signal), and background loops
become explicit step functions driven by input traces.  Paths that raise
and are swallowed by a `try/except` returning `None`/`{}` are embedded as
`Option` results.
-/

namespace TradeBot

/-- Order side, as the `'BUY'` / `'SELL'` strings of the source. -/
inductive Side where
  | BUY
  | SELL
deriving DecidableEq, Repr

/-- One grid level dictionary, from `GridOrderHandler.start_grid`
(`grid_orders.py`, lines 56-65): index, price, allocated quantity, optional
open buy / sell order references and the filled flag. -/
structure GridLevel where
  level : Nat
  price : ℚ
  quantity : ℚ
  buy_order_id : Option Nat
  sell_order_id : Option Nat
  filled : Bool
deriving DecidableEq, Repr

/-- The grid configuration dictionary built by `start_grid`
(`grid_orders.py`, lines 68-85), together with the `stop_time` and
`stop_reason` fields that `stop_grid` adds later (absent = `none`). -/
structure GridConfig where
  symbol : String
  upper_price : ℚ
  lower_price : ℚ
  grid_levels : Nat
  total_quantity : ℚ
  quantity_per_level : ℚ
  price_increment : ℚ
  grid_type : String
  take_profit_percentage : Option ℚ
  levels : List GridLevel
  status : String
  total_profit : ℚ
  trades_executed : Nat
  stop_requested : Bool
  stop_time : Option Nat
  stop_reason : Option String
deriving DecidableEq, Repr

/-- Level list built by `start_grid` (`grid_orders.py`, lines 51-65):
`price_increment = (upper - lower) / (grid_levels - 1)`,
`quantity_per_level = total_quantity / grid_levels`, and level `i` gets
price `lower + i * price_increment`.  In Python `grid_levels = 1` raises
`ZeroDivisionError` computing the increment and `grid_levels = 0` raises
computing the per-level quantity; both are caught by `start_grid`'s
`except`, which returns `None` — hence `none` for `L < 2`. -/
def startGridLevels (lower upper : ℚ) (gridLevels : Nat) (totalQuantity : ℚ) :
    Option (List GridLevel) :=
  if gridLevels < 2 then none
  else
    some ((List.range gridLevels).map (fun i =>
      { level := i
        price := lower + i * ((upper - lower) / ((gridLevels : ℚ) - 1))
        quantity := totalQuantity / gridLevels
        buy_order_id := none
        sell_order_id := none
        filled := false }))

/-- The full grid configuration as assembled by `start_grid` before any
orders are placed (`grid_orders.py`, lines 68-85). -/
def startGrid (symbol : String) (upper lower : ℚ) (gridLevels : Nat)
    (totalQuantity : ℚ) (gridType : String) (takeProfit : Option ℚ) :
    Option GridConfig :=
  (startGridLevels lower upper gridLevels totalQuantity).map (fun ls =>
    { symbol := symbol
      upper_price := upper
      lower_price := lower
      grid_levels := gridLevels
      total_quantity := totalQuantity
      quantity_per_level := totalQuantity / gridLevels
      price_increment := (upper - lower) / ((gridLevels : ℚ) - 1)
      grid_type := gridType
      take_profit_percentage := takeProfit
      levels := ls
      status := "ACTIVE"
      total_profit := 0
      trades_executed := 0
      stop_requested := false
      stop_time := none
      stop_reason := none })

/-- One attempted exchange order: side, limit price, quantity. -/
structure OrderAttempt where
  side : Side
  price : ℚ
  quantity : ℚ
deriving DecidableEq, Repr

/-- Orders attempted for one level by `_place_initial_grid_orders`
(`grid_orders.py`, lines 168-204): NEUTRAL places a buy strictly below and
a sell strictly above the current price, LONG buys at levels `≤` the
current price, SHORT sells at levels `≥` it. -/
def levelAttempts (gridType : String) (currentPrice : ℚ) (lv : GridLevel) :
    List OrderAttempt :=
  if gridType = "NEUTRAL" then
    (if lv.price < currentPrice then [⟨Side.BUY, lv.price, lv.quantity⟩] else []) ++
    (if lv.price > currentPrice then [⟨Side.SELL, lv.price, lv.quantity⟩] else [])
  else if gridType = "LONG" then
    (if lv.price ≤ currentPrice then [⟨Side.BUY, lv.price, lv.quantity⟩] else [])
  else if gridType = "SHORT" then
    (if lv.price ≥ currentPrice then [⟨Side.SELL, lv.price, lv.quantity⟩] else [])
  else []

/-- All orders attempted across the levels, in loop order
(`_place_initial_grid_orders`, `grid_orders.py`, lines 164-204). -/
def initialOrderAttempts (gridType : String) (currentPrice : ℚ)
    (levels : List GridLevel) : List OrderAttempt :=
  (levels.map (levelAttempts gridType currentPrice)).flatten

/-- `GridOrderHandler._handle_buy_fill` (`grid_orders.py`, lines 320-353),
for the buy fill at the level stored at index `i` (levels are stored with
`level` field equal to list position, so `level_data['level'] = i`).  The
sell placement outcome is supplied as `placeResult`: `some oid` models a
successful `_place_grid_order` response carrying `orderId = oid`, `none`
models the `None` failure response.  Returns the updated configuration and
the attempted sell order (`none` when no sell was attempted).  The source
mutates in place (filled flag and trade counter first, sell placement
next, buy reference cleared last); the updates touch the distinct indices
`i` and `i + 1`, so applying them in one pass yields the same final
state. -/
def handleBuyFill (g : GridConfig) (i : Nat) (placeResult : Option Nat) :
    GridConfig × Option OrderAttempt :=
  match g.levels.get? i with
  | none => (g, none)
  | some lv =>
    let attempt : Option OrderAttempt :=
      match g.levels.get? (i + 1) with
      | some nlv =>
        if nlv.sell_order_id = none then some ⟨Side.SELL, nlv.price, lv.quantity⟩
        else none
      | none => none
    let levelsAfterSell : List GridLevel :=
      match g.levels.get? (i + 1), placeResult with
      | some nlv, some oid =>
        if nlv.sell_order_id = none then
          g.levels.set (i + 1) { nlv with sell_order_id := some oid }
        else g.levels
      | _, _ => g.levels
    let finalLevels := levelsAfterSell.set i
      { lv with filled := true, buy_order_id := none }
    ({ g with levels := finalLevels, trades_executed := g.trades_executed + 1 },
     attempt)

/-- Open order references of a grid, in the cancellation loop's order
(`stop_grid`, `grid_orders.py`, lines 456-467: per level, buy first, then
sell). -/
def openOrderIds (g : GridConfig) : List Nat :=
  (g.levels.map (fun lv => lv.buy_order_id.toList ++ lv.sell_order_id.toList)).flatten

/-- `GridOrderHandler.stop_grid` on a registered grid (`grid_orders.py`,
lines 448-486): sets the stop flag, cancels every open buy and sell (the
outcome oracle `cancelOk` models `client.cancel_order` returning a
response or `None`; either way the reference is cleared and the loop
continues), then marks STOPPED, records stop time and reason.  Returns the
new configuration, the list of order ids whose cancellation was attempted,
and the `cancelled_orders` counter (used only for logging). -/
def stopGridConfig (g : GridConfig) (reason : String) (now : Nat)
    (cancelOk : Nat → Bool) : GridConfig × List Nat × Nat :=
  let attempts := openOrderIds g
  let cancelled := (attempts.filter cancelOk).length
  let newLevels := g.levels.map
    (fun lv => { lv with buy_order_id := none, sell_order_id := none })
  ({ g with stop_requested := true
            status := "STOPPED"
            levels := newLevels
            stop_time := some now
            stop_reason := some reason },
   attempts, cancelled)

/-- `GridOrderHandler.stop_grid` including the registry lookup
(`grid_orders.py`, lines 444-446): an unknown `grid_id` returns `False`
and touches nothing; a registered one is stopped via `stopGridConfig` and
the call returns `True`. -/
def stopGrid (reg : Option GridConfig) (reason : String) (now : Nat)
    (cancelOk : Nat → Bool) : Bool × Option GridConfig × List Nat × Nat :=
  match reg with
  | none => (false, none, [], 0)
  | some g =>
    let r := stopGridConfig g reason now cancelOk
    (true, some r.1, r.2.1, r.2.2)

/-- One iteration decision of `GridOrderHandler._monitor_grid`
(`grid_orders.py`, line 268): the body (abstracted as `pass`, one full
level-checking pass) runs only while the status is `'ACTIVE'` and no stop
was requested; otherwise the loop exits and the configuration is left
untouched. -/
def monitorStep (g : GridConfig) (pass : GridConfig → GridConfig) : GridConfig :=
  if g.status = "ACTIVE" ∧ g.stop_requested = false then pass g else g

/-- The TWAP configuration dictionary built by `TWAPOrderHandler.start_twap`
(`twap.py`, lines 56-73).  The `orders` list keeps the order ids of the
appended order responses. -/
structure TwapConfig where
  symbol : String
  side : String
  total_quantity : ℚ
  quantity_per_interval : ℚ
  duration_minutes : ℚ
  intervals : Nat
  interval_duration : ℚ
  order_type : String
  limit_price : Option ℚ
  executed_quantity : ℚ
  executed_intervals : Nat
  orders : List Nat
  status : String
  stop_requested : Bool
deriving DecidableEq, Repr

/-- `TWAPOrderHandler.start_twap` (`twap.py`, lines 46-76):
`quantity_per_interval = total_quantity / intervals` and
`interval_duration = duration_minutes / intervals`; `intervals = 0` raises
`ZeroDivisionError`, caught by the `except` which returns `None`. -/
def startTwap (symbol side : String) (totalQuantity durationMinutes : ℚ)
    (intervals : Nat) (orderType : String) (limitPrice : Option ℚ) :
    Option TwapConfig :=
  if intervals = 0 then none
  else
    some { symbol := symbol
           side := side
           total_quantity := totalQuantity
           quantity_per_interval := totalQuantity / intervals
           duration_minutes := durationMinutes
           intervals := intervals
           interval_duration := durationMinutes / intervals
           order_type := orderType
           limit_price := limitPrice
           executed_quantity := 0
           executed_intervals := 0
           orders := []
           status := "RUNNING"
           stop_requested := false }

/-- One interval of `TWAPOrderHandler._execute_twap` (`twap.py`, lines
158-166): on a successful order response (modelled as `some oid`) the
executed quantity grows by `quantity_per_interval`, the interval counter
by one, and the order is appended; a `None` response changes nothing and
the loop continues. -/
def twapInterval (c : TwapConfig) (result : Option Nat) : TwapConfig :=
  match result with
  | some oid =>
    { c with executed_quantity := c.executed_quantity + c.quantity_per_interval
             executed_intervals := c.executed_intervals + 1
             orders := c.orders ++ [oid] }
  | none => c

/-- The interval loop of `_execute_twap` (`twap.py`, lines 139-174) run on
an input trace: each element carries the `stop_requested` value observed
at the top of the iteration (it may be flipped concurrently by
`stop_twap`) and the interval's order outcome.  A `true` stop observation
breaks out of the loop. -/
def twapLoop : TwapConfig → List (Bool × Option Nat) → TwapConfig
  | c, [] => c
  | c, (stopNow, result) :: rest =>
    if stopNow then c else twapLoop (twapInterval c result) rest

/-- The epilogue of `_execute_twap` (`twap.py`, line 177): after the loop —
whether it ran all intervals or was broken by a stop request — the status
is unconditionally set to `'COMPLETED'`. -/
def twapEpilogue (c : TwapConfig) : TwapConfig :=
  { c with status := "COMPLETED" }

/-- `_execute_twap` end to end on an input trace (one trace element per
loop iteration entered, at most `intervals` of them). -/
def twapExecute (c : TwapConfig) (inputs : List (Bool × Option Nat)) : TwapConfig :=
  twapEpilogue (twapLoop c inputs)

/-- `TWAPOrderHandler.stop_twap` (`twap.py`, lines 272-293): an unknown id
returns `False`; otherwise the stop flag is set, the status becomes
`'STOPPED'` and the call returns `True` — regardless of the current
status. -/
def stopTwap (reg : Option TwapConfig) : Bool × Option TwapConfig :=
  match reg with
  | none => (false, none)
  | some c => (true, some { c with stop_requested := true, status := "STOPPED" })

/-- Python `str.upper`, embedded at the character level. -/
def pyUpper (s : String) : String := ⟨s.data.map Char.toUpper⟩

/-- Python `str.strip` (no argument): drop whitespace from both ends. -/
def pyStrip (s : String) : String :=
  ⟨(s.data.dropWhile Char.isWhitespace).reverse.dropWhile Char.isWhitespace |>.reverse⟩

/-- The static per-symbol rule table of `Validator.__init__`
(`validation.py`, lines 14-20): `(min_qty, max_qty, tick_size)` per
symbol, with the float literals read as exact rationals. -/
def symbolRules : List (String × ℚ × ℚ × ℚ) :=
  [("BTCUSDT", 1/1000, 1000, 1/100),
   ("ETHUSDT", 1/1000, 10000, 1/100),
   ("ADAUSDT", 1, 1000000, 1/10000),
   ("SOLUSDT", 1/100, 100000, 1/1000),
   ("DOTUSDT", 1/10, 100000, 1/1000)]

/-- Python 3 `round` applied to a rational: round half to even. -/
def pyRound (x : ℚ) : ℤ :=
  let f := Int.floor x
  let r := x - f
  if r < 1/2 then f
  else if 1/2 < r then f + 1
  else if f % 2 = 0 then f else f + 1

/-- `Validator.validate_symbol` (`validation.py`, lines 28-47): the
upper-cased, stripped symbol must appear in the rule table. -/
def validate_symbol (symbol : String) : Bool :=
  (symbolRules.lookup (pyStrip (pyUpper symbol))).isSome

/-- `Validator.validate_quantity` (`validation.py`, lines 50-84): symbol
valid, quantity positive and within the symbol's `[min_qty, max_qty]`.
The source indexes the rule table with `symbol.upper()` (no `strip`);
for a symbol needing stripping that raises an uncaught `KeyError`, a path
no claim exercises — embedded here as `false`. -/
def validate_quantity (symbol : String) (quantity : ℚ) : Bool :=
  if (symbolRules.lookup (pyStrip (pyUpper symbol))).isSome = false then false
  else if quantity ≤ 0 then false
  else
    match symbolRules.lookup (pyUpper symbol) with
    | none => false
    | some (minQty, maxQty, _) =>
      if quantity < minQty then false
      else if maxQty < quantity then false
      else true

/-- `Validator.validate_price` (`validation.py`, lines 86-123): `None` is
accepted, otherwise the symbol must be valid, the price positive, and the
price must match the symbol's tick size up to the `tick_size * 0.001`
tolerance after rounding `price / tick_size` with Python's `round`. -/
def validate_price (symbol : String) (price : Option ℚ) : Bool :=
  match price with
  | none => true
  | some p =>
    if (symbolRules.lookup (pyStrip (pyUpper symbol))).isSome = false then false
    else if p ≤ 0 then false
    else
      match symbolRules.lookup (pyUpper symbol) with
      | none => false
      | some (_, _, tick) =>
        let rounded : ℚ := (pyRound (p / tick) : ℚ) * tick
        decide (|p - rounded| ≤ tick * (1/1000))

/-- `Validator.validate_side` (`validation.py`, lines 125-143): the
upper-cased, stripped side must be `BUY` or `SELL`. -/
def validate_side (side : String) : Bool :=
  pyStrip (pyUpper side) = "BUY" || pyStrip (pyUpper side) = "SELL"

/-- `Validator.validate_oco_order` (`validation.py`, lines 249-298): the
basic symbol/quantity/price/side validations must all pass; then for a
SELL OCO the call is rejected when `stop_price >= price` or
`stop_limit_price > stop_price`, and for a BUY OCO when
`stop_price <= price` or `stop_limit_price < stop_price`. -/
def validate_oco_order (symbol : String)
    (quantity price stopPrice stopLimitPrice : ℚ) (side : String) : Bool :=
  let basic := validate_symbol symbol && validate_quantity symbol quantity &&
    validate_price symbol (some price) && validate_price symbol (some stopPrice) &&
    validate_price symbol (some stopLimitPrice) && validate_side side
  if basic = false then false
  else if pyUpper side = "SELL" then
    if price ≤ stopPrice then false
    else if stopPrice < stopLimitPrice then false
    else true
  else if pyUpper side = "BUY" then
    if stopPrice ≤ price then false
    else if stopLimitPrice < stopPrice then false
    else true
  else true

/-- The analysis dictionary returned by
`OCOOrderHandler.calculate_risk_reward_ratio` (`oco.py`, lines 401-409). -/
structure RiskReward where
  risk_amount : ℚ
  reward_amount : ℚ
  risk_reward_ratio : ℚ
  risk_percentage : ℚ
  reward_percentage : ℚ
  is_favorable : Bool
deriving DecidableEq, Repr

/-- `OCOOrderHandler.calculate_risk_reward_ratio` (`oco.py`, lines
374-416): a long trade iff `take_profit_price > entry_price`
(reward `= tp - entry`, risk `= entry - sl`), otherwise short
(reward `= entry - tp`, risk `= sl - entry`); the ratio is `reward / risk`
when `risk > 0` and `0` otherwise; `is_favorable` iff the ratio is `≥ 2`.
`entry_price = 0` raises `ZeroDivisionError` computing `risk_percentage`,
which the `except` turns into an empty dictionary — embedded as `none`. -/
def calculate_risk_reward_ratio (entryPrice takeProfitPrice stopLossPrice : ℚ) :
    Option RiskReward :=
  let reward := if entryPrice < takeProfitPrice then takeProfitPrice - entryPrice
    else entryPrice - takeProfitPrice
  let risk := if entryPrice < takeProfitPrice then entryPrice - stopLossPrice
    else stopLossPrice - entryPrice
  let ratio := if 0 < risk then reward / risk else 0
  if entryPrice = 0 then none
  else
    some { risk_amount := risk
           reward_amount := reward
           risk_reward_ratio := ratio
           risk_percentage := risk / entryPrice * 100
           reward_percentage := reward / entryPrice * 100
           is_favorable := decide (2 ≤ ratio) }

theorem startGridLevels_eq (lower upper : ℚ) (L : Nat) (qty : ℚ) (hL : 2 ≤ L) :
    startGridLevels lower upper L qty =
      some ((List.range L).map (fun i =>
        { level := i
          price := lower + i * ((upper - lower) / ((L : ℚ) - 1))
          quantity := qty / L
          buy_order_id := none
          sell_order_id := none
          filled := false })) := by
  rw [startGridLevels, if_neg (by omega)]

theorem grid_price_step_lt (lower upper : ℚ) (L : Nat) (hL : 2 ≤ L)
    (hlt : lower < upper) (i : Nat) :
    lower + i * ((upper - lower) / ((L : ℚ) - 1)) <
      lower + (i + 1 : Nat) * ((upper - lower) / ((L : ℚ) - 1)) := by
  have hden : (0 : ℚ) < (L : ℚ) - 1 := by
    have : (2 : ℚ) ≤ (L : ℚ) := by exact_mod_cast hL
    linarith
  have hinc : (0 : ℚ) < (upper - lower) / ((L : ℚ) - 1) :=
    div_pos (by linarith) hden
  have hcast : ((i : ℚ)) < ((i + 1 : Nat) : ℚ) := by push_cast; linarith
  nlinarith

/-- Claim C6: for every grid configuration with `L` levels (`L ≥ 2`, so
that the common difference `(upper - lower)/(L - 1)` is defined) and
`upper > lower`, the generated level prices are exactly `L` values forming
a strictly increasing arithmetic progression from `lower`: level `i` has
price `lower + i * (upper - lower)/(L - 1)`. -/
theorem grid_level_prices_arithmetic (lower upper : ℚ) (L : Nat) (qty : ℚ)
    (hL : 2 ≤ L) (hlt : lower < upper) :
    ∃ ls, startGridLevels lower upper L qty = some ls ∧
      ls.length = L ∧
      (∀ i (h : i < ls.length),
        (ls.get ⟨i, h⟩).price = lower + i * ((upper - lower) / ((L : ℚ) - 1))) ∧
      (∀ i (h : i + 1 < ls.length),
        (ls.get ⟨i, by omega⟩).price < (ls.get ⟨i + 1, h⟩).price) := by
  refine ⟨_, startGridLevels_eq lower upper L qty hL, by simp, ?_, ?_⟩
  · intro i h
    simp only [List.get_eq_getElem, List.getElem_map, List.getElem_range]
  · intro i h
    simp only [List.get_eq_getElem, List.getElem_map, List.getElem_range]
    exact grid_price_step_lt lower upper L hL hlt i

/-- Witness for C6 at the concrete configuration `lower = 100`,
`upper = 200`, `L = 5`. -/
theorem grid_level_prices_arithmetic_witness :
    ∃ ls, startGridLevels 100 200 5 10 = some ls ∧ ls.length = 5 := by
  obtain ⟨ls, h1, h2, -, -⟩ :=
    grid_level_prices_arithmetic 100 200 5 10 (by norm_num) (by norm_num)
  exact ⟨ls, h1, h2⟩

/-- Claim C3: a NEUTRAL grid started with `lower = 100`, `upper = 200`,
5 levels, total quantity 10, at market price 150 generates levels priced
100, 125, 150, 175, 200, attempts buys exactly at the levels strictly
below 150 (prices 100 and 125), sells exactly at the levels strictly
above 150 (prices 175 and 200), each for the per-level quantity 2, and
attempts no order at the level priced at the current market price. -/
theorem neutral_grid_initial_orders :
    (startGridLevels 100 200 5 10).map (fun ls => ls.map (fun lv => lv.price)) =
      some [100, 125, 150, 175, 200] ∧
    (startGridLevels 100 200 5 10).map (fun ls => initialOrderAttempts "NEUTRAL" 150 ls) =
      some [⟨Side.BUY, 100, 2⟩, ⟨Side.BUY, 125, 2⟩,
            ⟨Side.SELL, 175, 2⟩, ⟨Side.SELL, 200, 2⟩] ∧
    (startGridLevels 100 200 5 10).map (fun ls =>
        (initialOrderAttempts "NEUTRAL" 150 ls).filter (fun a => decide (a.price = 150))) =
      some [] := by
  refine ⟨?_, ?_, ?_⟩ <;>
    · rw [startGridLevels]
      norm_num [show List.range 5 = [0, 1, 2, 3, 4] from by decide,
        initialOrderAttempts, levelAttempts]

/-- Claim C2: when an open buy order fills at the grid level stored at
index `i`, the fill-handling step of `_handle_buy_fill` marks level `i`
filled, increments `trades_executed` by exactly one, clears level `i`'s
buy-order reference, and — when level `i + 1` exists and has no open
sell-order reference — attempts a sell at level `i + 1`'s price for level
`i`'s quantity, recording the returned order id at level `i + 1` on
success; when level `i + 1` does not exist or already has an open sell, no
sell is attempted and level `i + 1` is unchanged. -/
theorem handle_buy_fill_spec (g : GridConfig) (i : Nat) (placeResult : Option Nat)
    (lv : GridLevel) (hlv : g.levels.get? i = some lv) :
    (handleBuyFill g i placeResult).1.trades_executed = g.trades_executed + 1 ∧
    (handleBuyFill g i placeResult).1.levels.get? i =
      some { lv with filled := true, buy_order_id := none } ∧
    (∀ nlv, g.levels.get? (i + 1) = some nlv → nlv.sell_order_id = none →
      (handleBuyFill g i placeResult).2 = some ⟨Side.SELL, nlv.price, lv.quantity⟩ ∧
      (∀ oid, placeResult = some oid →
        (handleBuyFill g i placeResult).1.levels.get? (i + 1) =
          some { nlv with sell_order_id := some oid }) ∧
      (placeResult = none →
        (handleBuyFill g i placeResult).1.levels.get? (i + 1) = some nlv)) ∧
    (g.levels.get? (i + 1) = none →
      (handleBuyFill g i placeResult).2 = none ∧
      (handleBuyFill g i placeResult).1.levels.get? (i + 1) = none) ∧
    (∀ nlv, g.levels.get? (i + 1) = some nlv → nlv.sell_order_id ≠ none →
      (handleBuyFill g i placeResult).2 = none ∧
      (handleBuyFill g i placeResult).1.levels.get? (i + 1) = some nlv) := by
  have hi : i < g.levels.length := (List.get?_eq_some.mp hlv).1
  have hne : i + 1 ≠ i := by omega
  have hlv' : g.levels[i]? = some lv := by rw [← List.get?_eq_getElem?]; exact hlv
  have hgi : g.levels[i] = lv := by
    have := List.getElem?_eq_getElem hi
    rw [this] at hlv'; exact Option.some_injective _ hlv'
  simp only [List.get?_eq_getElem?] at *
  refine ⟨?_, ?_, ?_, ?_, ?_⟩
  · simp [handleBuyFill, hlv']
  · rcases hnext : g.levels[(i + 1)]? with _ | nlv
    · simp [handleBuyFill, hlv', hnext, List.getElem?_set_self',
        List.getElem?_eq_getElem hi, hgi]
    · rcases hpr : placeResult with _ | oid
      · simp [handleBuyFill, hlv', hnext, List.getElem?_set_self',
          List.getElem?_eq_getElem hi, hgi]
      · by_cases hs : nlv.sell_order_id = none
        · have hi1 : i + 1 < g.levels.length := (List.getElem?_eq_some.mp hnext).1
          simp [handleBuyFill, hlv', hnext, hs, List.getElem?_set_ne hne,
            List.getElem?_set_self', List.getElem?_eq_getElem hi,
            List.getElem?_eq_getElem hi1, hgi, List.getElem_set]
        · simp [handleBuyFill, hlv', hnext, hs, List.getElem?_set_self',
            List.getElem?_eq_getElem hi, hgi]
  · intro nlv hnext hs
    have hi1 : i + 1 < g.levels.length := (List.getElem?_eq_some.mp hnext).1
    have hne' : i ≠ i + 1 := by omega
    refine ⟨?_, ?_, ?_⟩
    · simp [handleBuyFill, hlv', hnext, hs]
    · intro oid hpr
      simp [handleBuyFill, hlv', hnext, hs, hpr, List.getElem?_set_ne hne',
        List.getElem?_set_self', List.getElem?_eq_getElem hi1]
    · intro hpr
      simp [handleBuyFill, hlv', hnext, hs, hpr, List.getElem?_set_ne hne', hnext]
  · intro hnext
    have hne' : i ≠ i + 1 := by omega
    constructor
    · simp [handleBuyFill, hlv', hnext]
    · rcases hpr : placeResult with _ | oid <;>
        simp [handleBuyFill, hlv', hnext, List.getElem?_set_ne hne']
  · intro nlv hnext hs
    have hne' : i ≠ i + 1 := by omega
    constructor
    · simp [handleBuyFill, hlv', hnext, hs]
    · rcases hpr : placeResult with _ | oid <;>
        simp [handleBuyFill, hlv', hnext, hs, List.getElem?_set_ne hne']

/-- A concrete NEUTRAL grid instance used to instantiate the
hypothesis-bearing theorems: the C3 scenario after initial placement, with
open buys at levels 0 and 1 and open sells at levels 3 and 4. -/
def sampleGrid : GridConfig :=
  { symbol := "BTCUSDT"
    upper_price := 200
    lower_price := 100
    grid_levels := 5
    total_quantity := 10
    quantity_per_level := 2
    price_increment := 25
    grid_type := "NEUTRAL"
    take_profit_percentage := none
    levels := [⟨0, 100, 2, some 11, none, false⟩, ⟨1, 125, 2, some 12, none, false⟩,
               ⟨2, 150, 2, none, none, false⟩, ⟨3, 175, 2, none, some 13, false⟩,
               ⟨4, 200, 2, none, some 14, false⟩]
    status := "ACTIVE"
    total_profit := 0
    trades_executed := 0
    stop_requested := false
    stop_time := none
    stop_reason := none }

/-- Witness for C2: a buy fill at level 1 of the sample grid (sell
placement succeeding with order id 99) executes one trade and attempts a
sell at level 2's price 150 for quantity 2. -/
theorem handle_buy_fill_witness :
    (handleBuyFill sampleGrid 1 (some 99)).1.trades_executed = 1 ∧
    (handleBuyFill sampleGrid 1 (some 99)).2 = some ⟨Side.SELL, 150, 2⟩ := by
  obtain ⟨h1, -, h3, -, -⟩ :=
    handle_buy_fill_spec sampleGrid 1 (some 99) ⟨1, 125, 2, some 12, none, false⟩ rfl
  exact ⟨h1, (h3 ⟨2, 150, 2, none, none, false⟩ rfl rfl).1⟩

/-- Claim C5: `stop_grid` on a registered grid attempts a cancel for every
level's open buy and open sell order (in the loop's order; an individual
cancel outcome never prevents the remaining cancels or the stop), sets the
status to `STOPPED` and `stop_reason` to the given reason regardless of
the cancel outcomes, and returns `True`; on an unknown grid id it returns
`False`.  The final conjunct states the outcome-independence: the
resulting configuration and the attempted-cancel list do not depend on the
cancellation oracle at all. -/
theorem stop_grid_spec :
    (∀ reason now cancelOk, stopGrid none reason now cancelOk = (false, none, [], 0)) ∧
    (∀ (g : GridConfig) reason now cancelOk,
      (stopGrid (some g) reason now cancelOk).1 = true ∧
      (stopGrid (some g) reason now cancelOk).2.2.1 = openOrderIds g ∧
      ∃ g', (stopGrid (some g) reason now cancelOk).2.1 = some g' ∧
        g'.status = "STOPPED" ∧ g'.stop_reason = some reason ∧
        g'.stop_requested = true ∧
        g'.levels = g.levels.map
          (fun lv => { lv with buy_order_id := none, sell_order_id := none })) ∧
    (∀ (g : GridConfig) reason now ok1 ok2,
      (stopGrid (some g) reason now ok1).2.1 = (stopGrid (some g) reason now ok2).2.1 ∧
      (stopGrid (some g) reason now ok1).2.2.1 =
        (stopGrid (some g) reason now ok2).2.2.1) := by
  refine ⟨fun _ _ _ => rfl, fun g reason now cancelOk => ?_, fun _ _ _ _ _ => ⟨rfl, rfl⟩⟩
  exact ⟨rfl, rfl, _, rfl, rfl, rfl, rfl, rfl⟩

theorem clear_map_id (ls : List GridLevel)
    (h : (ls.map (fun lv => lv.buy_order_id.toList ++ lv.sell_order_id.toList)).flatten = []) :
    ls.map (fun lv => { lv with buy_order_id := none, sell_order_id := none }) = ls := by
  induction ls with
  | nil => rfl
  | cons lv rest ih =>
    simp only [List.map_cons, List.flatten_cons, List.append_eq_nil] at h
    obtain ⟨⟨hb, hs⟩, hrest⟩ := h
    rcases lv with ⟨level, price, qty, bid, sid, filled⟩
    cases bid <;> cases sid <;> simp_all [ih]

/-- Claim C8 (amended): a second `stop` on an already-STOPPED instance
never errors and returns `True`.  For TWAP it is a true no-op: the
configuration is returned unchanged.  For Grid no cancel is attempted
(there are no open orders left) and status and levels are unchanged, but
the call does refresh `stop_time` and overwrite `stop_reason` with the new
call's reason — the full no-op of the original claim fails (see the
counterexample). -/
theorem stop_idempotent_spec (g : GridConfig) (c : TwapConfig)
    (hg : g.status = "STOPPED") (hopen : openOrderIds g = [])
    (hc : c.status = "STOPPED") (hcr : c.stop_requested = true) :
    (∀ reason now cancelOk,
      stopGrid (some g) reason now cancelOk =
        (true, some { g with stop_requested := true, stop_time := some now,
                             stop_reason := some reason }, [], 0)) ∧
    stopTwap (some c) = (true, some c) := by
  constructor
  · intro reason now cancelOk
    have hlv : g.levels.map
        (fun lv => { lv with buy_order_id := none, sell_order_id := none }) = g.levels :=
      clear_map_id g.levels hopen
    simp only [stopGrid, stopGridConfig, hopen, hlv, hg]
    rw [← hg]
    rfl
  · rcases c with ⟨sym, side, tq, qpi, dm, iv, idur, ot, lp, eq_, ei, ords, st, sr⟩
    simp_all [stopTwap]

/-- Counterexample for C8 as stated: stopping the sample grid and then
stopping it again (same reason) is not a no-op on observable state — the
second call rewrites `stop_time` (from 1 to 2), so the resulting
configuration differs from the already-stopped one. -/
theorem stop_idempotent_counterexample :
    ∃ g1, (stopGrid (some sampleGrid) "MANUAL" 1 (fun _ => true)).2.1 = some g1 ∧
      g1.status = "STOPPED" ∧
      ∃ g2, (stopGrid (some g1) "MANUAL" 2 (fun _ => true)).2.1 = some g2 ∧
        g2.stop_time = some 2 ∧ g1.stop_time = some 1 ∧ g2 ≠ g1 := by
  refine ⟨_, rfl, rfl, _, rfl, rfl, rfl, fun h => ?_⟩
  have := congrArg GridConfig.stop_time h
  simp [stopGrid, stopGridConfig] at this

/-- The sample grid after a completed stop: STOPPED, no open order
references. -/
def sampleStoppedGrid : GridConfig :=
  { sampleGrid with
      status := "STOPPED"
      stop_requested := true
      stop_time := some 1
      stop_reason := some "MANUAL"
      levels := sampleGrid.levels.map
        (fun lv => { lv with buy_order_id := none, sell_order_id := none }) }

/-- A TWAP instance in the STOPPED state. -/
def sampleStoppedTwap : TwapConfig :=
  { symbol := "BTCUSDT"
    side := "BUY"
    total_quantity := 10
    quantity_per_interval := 2
    duration_minutes := 10
    intervals := 5
    interval_duration := 2
    order_type := "MARKET"
    limit_price := none
    executed_quantity := 0
    executed_intervals := 0
    orders := []
    status := "STOPPED"
    stop_requested := true }

/-- Witness for C8 (amended) at the concrete stopped instances. -/
theorem stop_idempotent_witness :
    stopGrid (some sampleStoppedGrid) "MANUAL" 2 (fun _ => true) =
      (true,
       some { sampleStoppedGrid with
                stop_requested := true
                stop_time := some 2
                stop_reason := some "MANUAL" },
       [], 0) ∧
    stopTwap (some sampleStoppedTwap) = (true, some sampleStoppedTwap) := by
  have h := stop_idempotent_spec sampleStoppedGrid sampleStoppedTwap rfl rfl rfl rfl
  exact ⟨h.1 "MANUAL" 2 (fun _ => true), h.2⟩

theorem monitor_guard (g : GridConfig) (pass : GridConfig → GridConfig)
    (h : g.status ≠ "ACTIVE") : monitorStep g pass = g := by
  rw [monitorStep, if_neg]
  exact fun hc => h hc.1

/-- Claim C1 (amended): the grid monitor loop never steps an instance whose
status is not `ACTIVE` (in particular a terminal one), and every stop call
or TWAP execution epilogue ends in a terminal status; however, contrary to
the original claim, these operations do overwrite terminal statuses:
`stop_twap` sets `STOPPED` on any registered instance (even one already
`COMPLETED` or `FAILED`), and the TWAP execution loop's final step sets
`COMPLETED` unconditionally (even after a stop already set `STOPPED`). -/
theorem terminal_state_spec :
    (∀ (g : GridConfig) (pass : GridConfig → GridConfig),
      g.status ≠ "ACTIVE" → monitorStep g pass = g) ∧
    (∀ (g : GridConfig) reason now cancelOk,
      ∃ g', (stopGrid (some g) reason now cancelOk).2.1 = some g' ∧
        g'.status = "STOPPED") ∧
    (∀ c : TwapConfig, ∃ c', (stopTwap (some c)).2 = some c' ∧ c'.status = "STOPPED") ∧
    (∀ (c : TwapConfig) inputs, (twapExecute c inputs).status = "COMPLETED") := by
  refine ⟨monitor_guard, ?_, ?_, ?_⟩
  · intro g r n ok; exact ⟨_, rfl, rfl⟩
  · intro c; exact ⟨_, rfl, rfl⟩
  · intro c inputs; rfl

/-- Witness for C1 (amended): a monitor step on the stopped sample grid,
with a body that would bump the trade counter, leaves it untouched. -/
theorem terminal_state_witness :
    sampleStoppedGrid.status ≠ "ACTIVE" ∧
    monitorStep sampleStoppedGrid
      (fun g => { g with trades_executed := g.trades_executed + 1 }) =
      sampleStoppedGrid :=
  ⟨by decide, terminal_state_spec.1 sampleStoppedGrid _ (by decide)⟩

/-- Counterexample for C1 as stated: a TWAP instance reaches the terminal
status `COMPLETED` after execution, yet a subsequent `stop_twap` call
changes its status to `STOPPED` — a transition out of a terminal state. -/
theorem terminal_state_counterexample :
    ∃ c, (startTwap "BTCUSDT" "BUY" 10 10 5 "MARKET" none).map
        (fun c0 => twapExecute c0 [(false, some 1)]) = some c ∧
      c.status = "COMPLETED" ∧
      ∃ c', (stopTwap (some c)).2 = some c' ∧ c'.status = "STOPPED" ∧
        c'.status ≠ c.status := by
  refine ⟨_, rfl, rfl, _, rfl, rfl, by decide⟩

theorem twapLoop_executed_le (inputs : List (Bool × Option Nat)) (c : TwapConfig) :
    (twapLoop c inputs).executed_intervals ≤ c.executed_intervals + inputs.length := by
  induction inputs generalizing c with
  | nil => simp [twapLoop]
  | cons p rest ih =>
    rcases p with ⟨stopNow, result⟩
    cases stopNow
    · have hstep : (twapInterval c result).executed_intervals ≤ c.executed_intervals + 1 := by
        cases result <;> simp [twapInterval]
      have := ih (twapInterval c result)
      simp only [twapLoop, List.length_cons, Bool.false_eq_true, if_false]
      omega
    · simp [twapLoop]

theorem startTwap_eq (symbol side : String) (Q D : ℚ) (N : Nat)
    (orderType : String) (lp : Option ℚ) (hN : N ≠ 0) :
    startTwap symbol side Q D N orderType lp = some
      { symbol := symbol
        side := side
        total_quantity := Q
        quantity_per_interval := Q / N
        duration_minutes := D
        intervals := N
        interval_duration := D / N
        order_type := orderType
        limit_price := lp
        executed_quantity := 0
        executed_intervals := 0
        orders := []
        status := "RUNNING"
        stop_requested := false } := by
  rw [startTwap, if_neg hN]

/-- Claim C4: for every TWAP configuration with total quantity `Q` and
`N ≥ 2` intervals, the per-interval quantity is `Q / N`, the sum of the
`N` per-interval quantities is exactly `Q` (exact rational arithmetic — no
drift), and after any execution trace of at most `N` loop iterations
`executed_intervals ≤ N`. -/
theorem twap_quantity_spec (symbol side orderType : String) (limitPrice : Option ℚ)
    (Q D : ℚ) (N : Nat) (hN : 2 ≤ N) :
    ∃ c, startTwap symbol side Q D N orderType limitPrice = some c ∧
      c.quantity_per_interval = Q / N ∧
      (List.replicate N c.quantity_per_interval).sum = Q ∧
      ∀ inputs : List (Bool × Option Nat), inputs.length ≤ N →
        (twapLoop c inputs).executed_intervals ≤ N := by
  have h0 : N ≠ 0 := by omega
  refine ⟨_, startTwap_eq symbol side Q D N orderType limitPrice h0, rfl, ?_, ?_⟩
  · have hc : ((N : ℚ)) ≠ 0 := Nat.cast_ne_zero.mpr h0
    simp only [List.sum_replicate, nsmul_eq_mul]
    rw [mul_comm, div_mul_cancel₀ _ hc]
  · intro inputs hlen
    refine le_trans (twapLoop_executed_le inputs _) ?_
    simpa using hlen

/-- Witness for C4 at `Q = 10`, `N = 5`. -/
theorem twap_quantity_witness :
    ∃ c, startTwap "ETHUSDT" "SELL" 10 10 5 "MARKET" none = some c ∧
      (List.replicate 5 c.quantity_per_interval).sum = 10 := by
  obtain ⟨c, h1, -, h3, -⟩ :=
    twap_quantity_spec "ETHUSDT" "SELL" "MARKET" none 10 10 5 (by norm_num)
  exact ⟨c, h1, h3⟩

theorem pyRound_intCast (n : ℤ) : pyRound ((n : ℚ)) = n := by
  rw [pyRound]
  norm_num [Int.floor_intCast]

theorem validate_price_btc (p : ℚ) (k : ℤ) (hp : 0 < p) (hk : p = k * (1/100)) :
    validate_price "BTCUSDT" (some p) = true := by
  have h1 : symbolRules.lookup (pyStrip (pyUpper "BTCUSDT")) =
      some (1/1000, 1000, 1/100) := rfl
  have h2 : symbolRules.lookup (pyUpper "BTCUSDT") = some (1/1000, 1000, 1/100) := rfl
  have hdiv : p / ((1:ℚ)/100) = (k : ℚ) := by rw [hk]; field_simp
  simp only [validate_price, h1, h2, Option.isSome_some]
  rw [if_neg (by simp), if_neg (by exact not_le.mpr hp)]
  simp only [hdiv, pyRound_intCast, ← hk]
  norm_num

theorem validate_quantity_btc_one : validate_quantity "BTCUSDT" 1 = true := by
  have h1 : symbolRules.lookup (pyStrip (pyUpper "BTCUSDT")) =
      some (1/1000, 1000, 1/100) := rfl
  have h2 : symbolRules.lookup (pyUpper "BTCUSDT") = some (1/1000, 1000, 1/100) := rfl
  simp only [validate_quantity, h1, h2, Option.isSome_some]
  norm_num

/-- Claim C7: given otherwise valid symbol, quantity and prices, a SELL
OCO validates iff the stop price is strictly below the limit price and the
stop-limit price is at most the stop price, and a BUY OCO validates iff
the mirrored inequalities hold; in particular for symbol `BTCUSDT`
`validate(price=100, stop=105, stopLimit=104)` is rejected and
`validate(price=100, stop=95, stopLimit=94)` is accepted on the SELL
side. -/
theorem oco_validation_spec (symbol : String)
    (quantity price stopPrice stopLimitPrice : ℚ)
    (hsym : validate_symbol symbol = true)
    (hq : validate_quantity symbol quantity = true)
    (hp : validate_price symbol (some price) = true)
    (hsp : validate_price symbol (some stopPrice) = true)
    (hslp : validate_price symbol (some stopLimitPrice) = true) :
    (validate_oco_order symbol quantity price stopPrice stopLimitPrice "SELL" = true ↔
      (stopPrice < price ∧ stopLimitPrice ≤ stopPrice)) ∧
    (validate_oco_order symbol quantity price stopPrice stopLimitPrice "BUY" = true ↔
      (price < stopPrice ∧ stopPrice ≤ stopLimitPrice)) ∧
    validate_oco_order "BTCUSDT" 1 100 105 104 "SELL" = false ∧
    validate_oco_order "BTCUSDT" 1 100 95 94 "SELL" = true := by
  have hsellside : validate_side "SELL" = true := rfl
  have hbuyside : validate_side "BUY" = true := rfl
  have hb : validate_symbol "BTCUSDT" = true := rfl
  have h100 : validate_price "BTCUSDT" (some 100) = true :=
    validate_price_btc 100 10000 (by norm_num) (by norm_num)
  have h105 : validate_price "BTCUSDT" (some 105) = true :=
    validate_price_btc 105 10500 (by norm_num) (by norm_num)
  have h104 : validate_price "BTCUSDT" (some 104) = true :=
    validate_price_btc 104 10400 (by norm_num) (by norm_num)
  have h95 : validate_price "BTCUSDT" (some 95) = true :=
    validate_price_btc 95 9500 (by norm_num) (by norm_num)
  have h94 : validate_price "BTCUSDT" (some 94) = true :=
    validate_price_btc 94 9400 (by norm_num) (by norm_num)
  refine ⟨?_, ?_, ?_, ?_⟩
  · simp only [validate_oco_order, hsym, hq, hp, hsp, hslp, hsellside,
      Bool.and_true, Bool.true_and]
    rw [if_neg (by simp), if_pos (by decide : pyUpper "SELL" = "SELL")]
    split_ifs with h1 h2
    · simp only [Bool.false_eq_true, false_iff]
      exact fun hc => absurd hc.1 (not_lt.mpr h1)
    · simp only [Bool.false_eq_true, false_iff]
      exact fun hc => absurd h2 (not_lt.mpr hc.2)
    · simp only [true_iff]
      exact ⟨not_le.mp h1, not_lt.mp h2⟩
  · simp only [validate_oco_order, hsym, hq, hp, hsp, hslp, hbuyside,
      Bool.and_true, Bool.true_and]
    rw [if_neg (by simp), if_neg (by decide : ¬(pyUpper "BUY" = "SELL")),
      if_pos (by decide : pyUpper "BUY" = "BUY")]
    split_ifs with h1 h2
    · simp only [Bool.false_eq_true, false_iff]
      exact fun hc => absurd hc.1 (not_lt.mpr h1)
    · simp only [Bool.false_eq_true, false_iff]
      exact fun hc => absurd h2 (not_lt.mpr hc.2)
    · simp only [true_iff]
      exact ⟨not_le.mp h1, not_lt.mp h2⟩
  · simp only [validate_oco_order, hb, validate_quantity_btc_one, h100, h105, h104,
      hsellside, Bool.and_true, Bool.true_and]
    rw [if_neg (by simp), if_pos (by decide : pyUpper "SELL" = "SELL"),
      if_pos (by norm_num : (100:ℚ) ≤ 105)]
  · simp only [validate_oco_order, hb, validate_quantity_btc_one, h100, h95, h94,
      hsellside, Bool.and_true, Bool.true_and]
    rw [if_neg (by simp), if_pos (by decide : pyUpper "SELL" = "SELL"),
      if_neg (by norm_num : ¬((100:ℚ) ≤ 95)), if_neg (by norm_num : ¬((95:ℚ) < 94))]

/-- Witness for C7: the accepted concrete SELL OCO, via the iff. -/
theorem oco_validation_witness :
    validate_oco_order "BTCUSDT" 1 100 95 94 "SELL" = true := by
  have h := (oco_validation_spec "BTCUSDT" 1 100 95 94 rfl validate_quantity_btc_one
    (validate_price_btc 100 10000 (by norm_num) (by norm_num))
    (validate_price_btc 95 9500 (by norm_num) (by norm_num))
    (validate_price_btc 94 9400 (by norm_num) (by norm_num))).1
  exact h.mpr ⟨by norm_num, by norm_num⟩

/-- Counterexample for C9 as stated: at entry price 0 the computation does
not return the risk/reward analysis at all — the `risk_percentage`
division raises and the handler returns an empty dictionary. -/
theorem risk_reward_counterexample :
    calculate_risk_reward_ratio 0 1 2 = none := by
  rw [calculate_risk_reward_ratio]
  norm_num

/-- Claim C9 (amended): for every nonzero entry price, the computation
infers a long trade iff `takeProfit > entry` (reward `= takeProfit -
entry`, risk `= entry - stopLoss`), otherwise a short trade (reward
`= entry - takeProfit`, risk `= stopLoss - entry`), returns the risk and
reward amounts and their ratio (the ratio being `reward / risk` when
`risk > 0` and `0` otherwise), and a favorable flag true iff the returned
ratio is at least 2. -/
theorem risk_reward_spec (entry takeProfit stopLoss : ℚ) (h : entry ≠ 0) :
    ∃ a, calculate_risk_reward_ratio entry takeProfit stopLoss = some a ∧
      (entry < takeProfit →
        a.reward_amount = takeProfit - entry ∧ a.risk_amount = entry - stopLoss) ∧
      (¬ entry < takeProfit →
        a.reward_amount = entry - takeProfit ∧ a.risk_amount = stopLoss - entry) ∧
      a.risk_reward_ratio =
        (if 0 < a.risk_amount then a.reward_amount / a.risk_amount else 0) ∧
      (a.is_favorable = true ↔ 2 ≤ a.risk_reward_ratio) := by
  rw [calculate_risk_reward_ratio, if_neg h]
  by_cases hl : entry < takeProfit
  · simp only [if_pos hl]
    refine ⟨_, rfl, fun _ => ⟨rfl, rfl⟩, fun hc => absurd hl hc, rfl, ?_⟩
    simp [decide_eq_true_eq]
  · simp only [if_neg hl]
    refine ⟨_, rfl, fun hc => absurd hc hl, fun _ => ⟨rfl, rfl⟩, rfl, ?_⟩
    simp [decide_eq_true_eq]

/-- Witness for C9 (amended) at entry 100, take-profit 120, stop 90. -/
theorem risk_reward_witness :
    ∃ a, calculate_risk_reward_ratio 100 120 90 = some a ∧
      a.risk_reward_ratio = (if 0 < a.risk_amount then a.reward_amount / a.risk_amount else 0) := by
  obtain ⟨a, h1, -, -, h4, -⟩ := risk_reward_spec 100 120 90 (by norm_num)
  exact ⟨a, h1, h4⟩

/-- Counterexample for C10 as stated: at entry price 0 with non-positive
risk the computation returns no analysis at all (empty dictionary), rather
than a zero ratio with the risk amount. -/
theorem risk_reward_zero_counterexample :
    calculate_risk_reward_ratio 0 1 0 = none := by
  rw [calculate_risk_reward_ratio]
  norm_num

/-- Claim C10 (amended): for every nonzero entry price, whenever the
computed risk amount is non-positive the returned ratio is `0` (the
division is skipped), the favorable flag is `false`, and the non-positive
risk amount is still returned. -/
theorem risk_reward_no_div_spec (entry takeProfit stopLoss : ℚ) (h : entry ≠ 0)
    (hrisk : (if entry < takeProfit then entry - stopLoss else stopLoss - entry) ≤ 0) :
    ∃ a, calculate_risk_reward_ratio entry takeProfit stopLoss = some a ∧
      a.risk_amount ≤ 0 ∧ a.risk_reward_ratio = 0 ∧ a.is_favorable = false ∧
      a.risk_amount = (if entry < takeProfit then entry - stopLoss else stopLoss - entry) := by
  rw [calculate_risk_reward_ratio, if_neg h]
  by_cases hl : entry < takeProfit
  · rw [if_pos hl] at hrisk
    simp only [if_pos hl]
    refine ⟨_, rfl, hrisk, ?_, ?_, rfl⟩
    · exact if_neg (not_lt.mpr hrisk)
    · rw [if_neg (not_lt.mpr hrisk)]
      exact decide_eq_false (by norm_num : ¬(2 ≤ (0:ℚ)))
  · rw [if_neg hl] at hrisk
    simp only [if_neg hl]
    refine ⟨_, rfl, hrisk, ?_, ?_, rfl⟩
    · exact if_neg (not_lt.mpr hrisk)
    · rw [if_neg (not_lt.mpr hrisk)]
      exact decide_eq_false (by norm_num : ¬(2 ≤ (0:ℚ)))

/-- Witness for C10 (amended): a long trade with stop-loss above entry. -/
theorem risk_reward_no_div_witness :
    ∃ a, calculate_risk_reward_ratio 100 120 110 = some a ∧
      a.risk_reward_ratio = 0 ∧ a.is_favorable = false := by
  obtain ⟨a, h1, -, h3, h4, -⟩ :=
    risk_reward_no_div_spec 100 120 110 (by norm_num) (by norm_num)
  exact ⟨a, h1, h3, h4⟩

end TradeBot
